import Mathlib

/-!
Verification of the supermercado-api sale controller (sale.controller.js) against
its specification.  The controller's five operations — getAllSales, createSale,
updatePaymentStatus, cancelSale, getSalesStats — are shallowly embedded as pure
functions over an explicit database state.  MongoDB transactions are modelled by
returning the pre-call state on every error path (abortTransaction) and the
committed state on success; mongoose schema enum/min validation at `save` time is
modelled for the paths the code actually modifies.  JS numbers are modelled as ℚ.
-/

namespace Supermercado

/-! ## Data model (product.model.js / sale.model.js) -/

structure Product where
  id : Nat
  code : String
  name : String
  price : ℚ
  cost : ℚ
  stock : ℚ
  discount : ℚ
  isActive : Bool
  deriving Repr, DecidableEq

structure DateYMD where
  year : Nat
  month : Nat
  day : Nat
  deriving Repr, DecidableEq

structure SaleItem where
  product : Nat
  productCode : String
  productName : String
  quantity : ℚ
  unitPrice : ℚ
  discount : ℚ
  subtotal : ℚ
  deriving Repr, DecidableEq

structure Sale where
  id : Nat
  saleNumber : String
  customer : Option Nat
  items : List SaleItem
  totalAmount : ℚ
  paymentMethod : String
  paymentStatus : String
  seller : Nat
  notes : Option String
  tax : ℚ
  createdAt : DateYMD
  deriving Repr, DecidableEq

structure DB where
  products : List Product
  sales : List Sale
  deriving Repr, DecidableEq

structure AuthUser where
  id : Nat
  role : String
  deriving Repr, DecidableEq

/-- Error taxonomy of the controller's non-500 responses (status code + message
kind); `insufficientStock` carries the available-vs-requested detail that the
code interpolates into its message. -/
inductive ApiError where
  | validationError (msg : String)
  | notFound (msg : String)
  | insufficientStock (productName : String) (available requested : ℚ)
  | invalidState (msg : String)
  | serverError (msg : String)
  deriving Repr, DecidableEq

/-! ## Store primitives: `Model.findById` / `document.save` over a list -/

/-- `Model.findById`: first record whose id field equals `i`. -/
def findById (f : α → Nat) (l : List α) (i : Nat) : Option α :=
  l.find? (fun x => decide (f x = i))

/-- `document.save()` for a previously fetched document: replace the stored copy. -/
def saveById (f : α → Nat) (l : List α) (x : α) : List α :=
  l.map (fun y => if f y = f x then x else y)

/-! ## JS semantics helpers -/

/-- JS truthiness of a possibly-absent string (`undefined` and `""` are falsy). -/
def strPresent : Option String → Bool
  | none => false
  | some s => !s.isEmpty

/-- JS `a || d` where `a` is a possibly-absent string. -/
def jsOrStr : Option String → String → String
  | none, d => d
  | some s, d => if s.isEmpty then d else s

/-- JS `a || d` where `a` is a possibly-absent number (`0` is falsy). -/
def jsOrNum : Option ℚ → ℚ → ℚ
  | none, d => d
  | some x, d => if x = 0 then d else x

/-! ## createSale (sale.controller.js lines 91-200) -/

structure SaleItemInput where
  product : Nat
  quantity : ℚ
  discount : Option ℚ
  deriving Repr, DecidableEq

structure SaleInput where
  items : Option (List SaleItemInput)
  paymentMethod : Option String
  paymentStatus : Option String
  customer : Option Nat
  notes : Option String
  tax : Option ℚ
  deriving Repr, DecidableEq

/-- Line 143: `const discount = item.discount || product.discount || 0;`. -/
def effectiveDiscount (itemDiscount : Option ℚ) (productDiscount : ℚ) : ℚ :=
  jsOrNum itemDiscount (jsOrNum (some productDiscount) 0)

/-- Line 117: `(salesCount + 1).toString().padStart(3, '0')`. -/
def padStart3 (s : String) : String :=
  if s.length < 3 then String.mk (List.replicate (3 - s.length) '0') ++ s else s

/-- Lines 111-117: sale number from the current year and the total count of
existing Sale documents (`Sale.countDocuments({})`). -/
def saleNumberOf (year : Nat) (salesCount : Nat) : String :=
  "V" ++ toString year ++ "-" ++ padStart3 (toString (salesCount + 1))

/-- mongoose enum for `paymentMethod` (sale.model.js). -/
def validPaymentMethod (m : String) : Bool :=
  m = "efectivo" || m = "tarjeta_credito" || m = "tarjeta_debito" || m = "transferencia"

/-- mongoose enum for `paymentStatus` (sale.model.js). -/
def validPaymentStatus (s : String) : Bool :=
  s = "pendiente" || s = "completado" || s = "cancelado"

/-- mongoose per-item constraints (sale.model.js saleItemSchema). -/
def validSaleItem (it : SaleItem) : Bool :=
  decide (1 ≤ it.quantity) && decide (0 ≤ it.unitPrice) &&
    decide (0 ≤ it.discount) && decide (it.discount ≤ 100)

/-- mongoose validation run by `newSale.save()` on the paths createSale sets. -/
def saleValidates (s : Sale) : Bool :=
  validPaymentMethod s.paymentMethod && validPaymentStatus s.paymentStatus &&
    s.items.all validSaleItem

/-- Lines 123-162: the per-item loop.  Threads the session's view of the
products collection; returns the final products, the accumulated total and the
processed line-item snapshots, or the first item's error. -/
def processItems : List SaleItemInput → List Product →
    Except ApiError (List Product × ℚ × List SaleItem)
  | [], prods => .ok (prods, 0, [])
  | item :: rest, prods =>
    match findById Product.id prods item.product with
    | none =>
        .error (.notFound ("Producto con ID " ++ toString item.product ++ " no encontrado"))
    | some product =>
      if product.stock < item.quantity then
        .error (.insufficientStock product.name product.stock item.quantity)
      else
        let discount := effectiveDiscount item.discount product.discount
        let subtotal := item.quantity * product.price * (1 - discount / 100)
        let processed : SaleItem :=
          { product := product.id
            productCode := product.code
            productName := product.name
            quantity := item.quantity
            unitPrice := product.price
            discount := discount
            subtotal := subtotal }
        let prods1 := saveById Product.id prods { product with stock := product.stock - item.quantity }
        match processItems rest prods1 with
        | .error e => .error e
        | .ok (finalProds, restTotal, restItems) =>
            .ok (finalProds, subtotal + restTotal, processed :: restItems)

/-- Lines 91-200.  The result pairs the observable post-call database (the
pre-call one whenever the transaction aborts) with the response. -/
def createSale (db : DB) (user : AuthUser) (today : DateYMD) (newId : Nat)
    (saleData : SaleInput) : DB × Except ApiError Sale :=
  match saleData.items with
  | none => (db, .error (.validationError "La venta debe tener al menos un item"))
  | some items =>
    if items.length = 0 then
      (db, .error (.validationError "La venta debe tener al menos un item"))
    else if !strPresent saleData.paymentMethod then
      (db, .error (.validationError "El método de pago es requerido"))
    else
      match processItems items db.products with
      | .error e => (db, .error e)
      | .ok (finalProds, totalAmount, processedItems) =>
        let newSale : Sale :=
          { id := newId
            saleNumber := saleNumberOf today.year db.sales.length
            customer := saleData.customer
            items := processedItems
            totalAmount := totalAmount
            paymentMethod := jsOrStr saleData.paymentMethod ""
            paymentStatus := jsOrStr saleData.paymentStatus "pendiente"
            seller := user.id
            notes := saleData.notes
            tax := jsOrNum saleData.tax 0
            createdAt := today }
        if saleValidates newSale then
          ({ products := finalProds, sales := db.sales ++ [newSale] }, .ok newSale)
        else
          (db, .error (.serverError "Error al crear venta"))

/-! ## updatePaymentStatus (lines 205-246) -/

def updatePaymentStatus (db : DB) (saleId : Nat)
    (paymentStatus paymentMethod : Option String) : DB × Except ApiError Sale :=
  if !strPresent paymentStatus then
    (db, .error (.validationError "Se requiere el estado de pago"))
  else
    match findById Sale.id db.sales saleId with
    | none => (db, .error (.notFound "Venta no encontrada"))
    | some sale =>
      if sale.paymentStatus = "cancelado" then
        (db, .error (.invalidState "No se puede modificar una venta cancelada"))
      else
        let sale1 := { sale with paymentStatus := jsOrStr paymentStatus "" }
        let sale2 := if strPresent paymentMethod
          then { sale1 with paymentMethod := jsOrStr paymentMethod "" } else sale1
        if validPaymentStatus sale2.paymentStatus &&
            (!strPresent paymentMethod || validPaymentMethod sale2.paymentMethod) then
          ({ db with sales := saveById Sale.id db.sales sale2 }, .ok sale2)
        else
          (db, .error (.serverError "Error al actualizar estado de pago"))

/-! ## cancelSale (lines 251-307) -/

/-- Lines 276-286: restore stock item by item, skipping items whose product no
longer resolves. -/
def restoreStock : List SaleItem → List Product → List Product
  | [], prods => prods
  | it :: rest, prods =>
    match findById Product.id prods it.product with
    | some product =>
        restoreStock rest (saveById Product.id prods { product with stock := product.stock + it.quantity })
    | none => restoreStock rest prods

def cancelSale (db : DB) (saleId : Nat) : DB × Except ApiError Sale :=
  match findById Sale.id db.sales saleId with
  | none => (db, .error (.notFound "Venta no encontrada"))
  | some sale =>
    if sale.paymentStatus = "cancelado" then
      (db, .error (.invalidState "La venta ya está cancelada"))
    else
      let cancelled := { sale with paymentStatus := "cancelado" }
      ({ products := restoreStock sale.items db.products
         sales := saveById Sale.id db.sales cancelled }, .ok cancelled)

/-! ## getAllSales (lines 10-62) and getSalesStats (lines 312-416) -/

structure SalesQuery where
  startDate : Option DateYMD
  endDate : Option DateYMD
  paymentStatus : Option String
  paymentMethod : Option String
  customerId : Option Nat
  sellerId : Option Nat
  deriving Repr, DecidableEq

/-- Calendar comparison used for the `createdAt` range filters and sorts. -/
def DateYMD.le (a b : DateYMD) : Bool :=
  decide (a.year < b.year) || (decide (a.year = b.year) &&
    (decide (a.month < b.month) || (decide (a.month = b.month) && decide (a.day ≤ b.day))))

/-- Lines 42-49 / 328-331: the `seller` filter finally in effect — the query's
`sellerId` is overwritten with the caller's own id whenever the caller is
present and not an admin. -/
def effectiveSeller : Option AuthUser → Option Nat → Option Nat
  | some u, q => if u.role = "admin" then q else some u.id
  | none, q => q

/-- The filter object built by getAllSales (lines 14-49) applied to one sale. -/
def saleMatchesQuery (user : Option AuthUser) (q : SalesQuery) (s : Sale) : Bool :=
  (match q.startDate with | none => true | some d => DateYMD.le d s.createdAt) &&
  (match q.endDate with | none => true | some d => DateYMD.le s.createdAt d) &&
  (match q.paymentStatus with | none => true | some st => decide (s.paymentStatus = st)) &&
  (match q.paymentMethod with | none => true | some m => decide (s.paymentMethod = m)) &&
  (match q.customerId with | none => true | some c => decide (s.customer = some c)) &&
  (match effectiveSeller user q.sellerId with | none => true | some sid => decide (s.seller = sid))

/-- Insertion into a list sorted by the strict-weak `before` relation. -/
def insertSorted (before : α → α → Bool) (x : α) : List α → List α
  | [] => [x]
  | y :: ys => if before x y then x :: y :: ys else y :: insertSorted before x ys

/-- Deterministic model of the store's `sort`. -/
def sortByRel (before : α → α → Bool) (l : List α) : List α :=
  l.foldr (insertSorted before) []

/-- Lines 10-62: filtered sales, sorted by `createdAt` descending. -/
def getAllSales (db : DB) (user : Option AuthUser) (q : SalesQuery) : List Sale :=
  sortByRel (fun a b => DateYMD.le b.createdAt a.createdAt)
    (db.sales.filter (saleMatchesQuery user q))

/-- The `$match` filter (lines 317-331) used by every stats pipeline except the
per-payment-status one: non-cancelled, optional date range, seller scoping;
getSalesStats never reads `sellerId`. -/
def saleMatchesStatsFilter (user : Option AuthUser) (q : SalesQuery) (s : Sale) : Bool :=
  decide (s.paymentStatus ≠ "cancelado") &&
  (match q.startDate with | none => true | some d => DateYMD.le d s.createdAt) &&
  (match q.endDate with | none => true | some d => DateYMD.le s.createdAt d) &&
  (match effectiveSeller user none with | none => true | some sid => decide (s.seller = sid))

/-- The `$match` of the per-payment-status pipeline (line 352):
`{ ...filters, paymentStatus: { $exists: true } }`.  The later object-literal
key overrides the spread, so the `$ne: 'cancelado'` clause is removed for this
one pipeline — cancelled sales match it; the date range and seller scoping
survive, and `$exists: true` always holds of a stored sale. -/
def saleMatchesStatusFilter (user : Option AuthUser) (q : SalesQuery) (s : Sale) : Bool :=
  (match q.startDate with | none => true | some d => DateYMD.le d s.createdAt) &&
  (match q.endDate with | none => true | some d => DateYMD.le s.createdAt d) &&
  (match effectiveSeller user none with | none => true | some sid => decide (s.seller = sid))

/-- First-occurrence deduplication of `$group` keys. -/
def dedupKeys [DecidableEq κ] : List κ → List κ
  | [] => []
  | k :: ks => k :: (dedupKeys ks).filter (fun k2 => decide (k2 ≠ k))

structure GroupStat where
  key : String
  count : Nat
  total : ℚ
  deriving Repr, DecidableEq

/-- `$group` by a string key with `count: {$sum: 1}, total: {$sum: totalAmount}`. -/
def groupTotals (key : Sale → String) (l : List Sale) : List GroupStat :=
  (dedupKeys (l.map key)).map (fun k =>
    { key := k
      count := (l.filter (fun s => decide (key s = k))).length
      total := ((l.filter (fun s => decide (key s = k))).map Sale.totalAmount).sum })

structure TopProduct where
  productId : Nat
  productName : String
  totalQuantity : ℚ
  totalAmount : ℚ
  deriving Repr, DecidableEq

/-- Lines 357-369: unwind items, group by (product, productName), sort by
quantity descending, top 5. -/
def topProductsOf (l : List Sale) : List TopProduct :=
  let allItems := l.flatMap Sale.items
  let groups := (dedupKeys (allItems.map (fun it => (it.product, it.productName)))).map
    (fun k =>
      let its := allItems.filter (fun it => decide (it.product = k.1 ∧ it.productName = k.2))
      { productId := k.1
        productName := k.2
        totalQuantity := (its.map SaleItem.quantity).sum
        totalAmount := (its.map SaleItem.subtotal).sum })
  (sortByRel (fun a b => decide (b.totalQuantity ≤ a.totalQuantity)) groups).take 5

/-- `toString().padStart(2, '0')` (line 391). -/
def padStart2 (s : String) : String :=
  if s.length < 2 then String.mk (List.replicate (2 - s.length) '0') ++ s else s

structure DayStat where
  date : String
  count : Nat
  total : ℚ
  deriving Repr, DecidableEq

/-- Lines 372-394: group by calendar day, sort latest-first, 30 days, format. -/
def salesByDayOf (l : List Sale) : List DayStat :=
  let days := (sortByRel (fun a b => DateYMD.le b a) (dedupKeys (l.map Sale.createdAt))).take 30
  days.map (fun d =>
    { date := toString d.year ++ "-" ++ padStart2 (toString d.month) ++ "-" ++
        padStart2 (toString d.day)
      count := (l.filter (fun s => decide (s.createdAt = d))).length
      total := ((l.filter (fun s => decide (s.createdAt = d))).map Sale.totalAmount).sum })

structure SalesStats where
  totalSales : Nat
  totalAmount : ℚ
  paymentMethods : List GroupStat
  paymentStatus : List GroupStat
  topProducts : List TopProduct
  salesByDay : List DayStat
  deriving Repr, DecidableEq

/-- Lines 312-416: every aggregate ranges over the cancelled-excluding matched
set, except the per-payment-status breakdown, whose line-352 `$match` spreads
`filters` and then overrides its `paymentStatus` key with `$exists: true`,
re-admitting cancelled sales into that one aggregate. -/
def getSalesStats (db : DB) (user : Option AuthUser) (q : SalesQuery) : SalesStats :=
  let matched := db.sales.filter (saleMatchesStatsFilter user q)
  { totalSales := matched.length
    totalAmount := (matched.map Sale.totalAmount).sum
    paymentMethods := sortByRel (fun a b => decide (b.total ≤ a.total))
      (groupTotals Sale.paymentMethod matched)
    paymentStatus := groupTotals Sale.paymentStatus
      (db.sales.filter (saleMatchesStatusFilter user q))
    topProducts := topProductsOf matched
    salesByDay := salesByDayOf matched }

/-! ## Raw request values (for the validation phase, lines 100-109)

The controller validates the raw JSON body before any type information exists;
to reason about a request whose `quantity` is not a number we embed the raw
values the checks actually look at. -/

/-- A raw JSON field value: a number, a string that does not parse as a number
(`Number(v)` would give NaN), or absent. -/
inductive JSValue where
  | num (value : ℚ)
  | nonNumericStr (value : String)
  | undef
  deriving Repr, DecidableEq

structure RawSaleItem where
  product : Nat
  quantity : JSValue
  discount : JSValue
  deriving Repr, DecidableEq

structure RawSaleData where
  items : Option (List RawSaleItem)
  paymentMethod : Option String
  deriving Repr, DecidableEq

/-- Lines 100-109: the only checks performed before the per-item loop mutates
the session.  Returns the validation error the controller would send, if any. -/
def validateSaleData (saleData : RawSaleData) : Option ApiError :=
  match saleData.items with
  | none => some (.validationError "La venta debe tener al menos un item")
  | some items =>
    if items.length = 0 then
      some (.validationError "La venta debe tener al menos un item")
    else if !strPresent saleData.paymentMethod then
      some (.validationError "El método de pago es requerido")
    else
      none

/-- JS numeric coercion of a raw value (`NaN` is `none`). -/
def jsToNumber : JSValue → Option ℚ
  | .num v => some v
  | .nonNumericStr _ => none
  | .undef => none

/-- JS `a < b` under numeric coercion: any comparison with NaN is false, so
line 134's guard `product.stock < item.quantity` passes for a NaN quantity. -/
def jsLtNum (a : ℚ) (b : JSValue) : Bool :=
  match jsToNumber b with
  | some q => decide (a < q)
  | none => false

/-! ## Store lemmas -/

theorem findById_saveById (f : α → Nat) (l : List α) (x : α) (i : Nat) :
    findById f (saveById f l x) i =
      if f x = i then (findById f l i).map (fun _ => x) else findById f l i := by
  induction l with
  | nil => by_cases h : f x = i <;> simp [findById, saveById, h]
  | cons y ys ih =>
    by_cases hyx : f y = f x <;> by_cases hxi : f x = i <;>
      simp only [findById, saveById, List.map_cons, List.find?_cons] at ih ⊢ <;>
      simp_all [findById, saveById]

theorem findById_mem_id {f : α → Nat} {l : List α} {i : Nat} {x : α}
    (h : findById f l i = some x) : f x = i := by
  have := List.find?_some h
  simpa using this

/-! ## processItems lemmas -/

/-- Total requested quantity for one product across a list of input items. -/
def inputQuantityFor (items : List SaleItemInput) (pid : Nat) : ℚ :=
  ((items.filter (fun it => decide (it.product = pid))).map SaleItemInput.quantity).sum

/-- Total quantity for one product across a sale's stored line items. -/
def itemQuantityFor (items : List SaleItem) (pid : Nat) : ℚ :=
  ((items.filter (fun it => decide (it.product = pid))).map SaleItem.quantity).sum

/-- On success the loop's final products collection is the initial one with
every product's stock decreased by the total quantity requested for it; no
product is created, removed, or otherwise edited. -/
theorem processItems_ok_products {items : List SaleItemInput} {prods prods' : List Product}
    {total : ℚ} {pitems : List SaleItem}
    (h : processItems items prods = .ok (prods', total, pitems)) (pid : Nat) :
    findById Product.id prods' pid =
      (findById Product.id prods pid).map
        (fun p => { p with stock := p.stock - inputQuantityFor items pid }) := by
  induction items generalizing prods total pitems with
  | nil =>
    simp only [processItems, Except.ok.injEq, Prod.mk.injEq] at h
    obtain ⟨rfl, -, -⟩ := h
    cases hf : findById Product.id prods pid <;> simp [inputQuantityFor]
  | cons item rest ih =>
    simp only [processItems] at h
    split at h
    · exact absurd h (by simp)
    · rename_i product hf
      split at h
      · exact absurd h (by simp)
      · rename_i hst
        split at h
        · exact absurd h (by simp)
        · rename_i finalProds restTotal restItems hrec
          simp only [Except.ok.injEq, Prod.mk.injEq] at h
          obtain ⟨rfl, -, -⟩ := h
          have hid : product.id = item.product := findById_mem_id hf
          have step := findById_saveById Product.id prods
            { product with stock := product.stock - item.quantity } pid
          by_cases hpid : pid = item.product
          · subst hpid
            have hc : Product.id { product with stock := product.stock - item.quantity } =
                item.product := hid
            rw [ih hrec, step, if_pos hc, hf]
            simp [inputQuantityFor, sub_sub]
          · have hne : item.product ≠ pid := fun hh => hpid hh.symm
            have hc : Product.id { product with stock := product.stock - item.quantity } ≠
                pid := by
              show product.id ≠ pid
              rw [hid]; exact hne
            rw [ih hrec, step, if_neg hc]
            have hq : inputQuantityFor (item :: rest) pid = inputQuantityFor rest pid := by
              simp [inputQuantityFor, hne]
            rw [hq]

/-- What one processed line item records, relative to a products collection:
the snapshot of the resolved product and the subtotal formula of line 144. -/
def ItemSpec (prods : List Product) (inp : SaleItemInput) (out : SaleItem) : Prop :=
  ∃ p, findById Product.id prods inp.product = some p ∧
    out.product = p.id ∧
    out.productCode = p.code ∧
    out.productName = p.name ∧
    out.quantity = inp.quantity ∧
    out.unitPrice = p.price ∧
    out.discount = effectiveDiscount inp.discount p.discount ∧
    out.subtotal = inp.quantity * p.price * (1 - out.discount / 100)

/-- `ItemSpec` is insensitive to a stock-only update of the collection. -/
theorem ItemSpec_of_saveStock {prods : List Product} {product : Product} {snew : ℚ}
    (hf : findById Product.id prods product.id = some product)
    {inp : SaleItemInput} {out : SaleItem}
    (h : ItemSpec (saveById Product.id prods { product with stock := snew }) inp out) :
    ItemSpec prods inp out := by
  obtain ⟨p1, hp1, hfields⟩ := h
  rw [findById_saveById] at hp1
  by_cases hc : Product.id { product with stock := snew } = inp.product
  · rw [if_pos hc] at hp1
    have hc' : product.id = inp.product := hc
    rw [← hc', hf] at hp1
    simp only [Option.map_some'] at hp1
    refine ⟨product, by rw [← hc', hf], ?_⟩
    cases hp1
    exact hfields
  · rw [if_neg hc] at hp1
    exact ⟨p1, hp1, hfields⟩

/-- On success the processed items snapshot the initial products one for one,
and the accumulated total is the sum of the line subtotals. -/
theorem processItems_ok_items {items : List SaleItemInput} {prods prods' : List Product}
    {total : ℚ} {pitems : List SaleItem}
    (h : processItems items prods = .ok (prods', total, pitems)) :
    total = (pitems.map SaleItem.subtotal).sum ∧
      List.Forall₂ (ItemSpec prods) items pitems := by
  induction items generalizing prods total pitems with
  | nil =>
    simp only [processItems, Except.ok.injEq, Prod.mk.injEq] at h
    obtain ⟨-, rfl, rfl⟩ := h
    exact ⟨by simp, List.Forall₂.nil⟩
  | cons item rest ih =>
    simp only [processItems] at h
    split at h
    · exact absurd h (by simp)
    · rename_i product hf
      split at h
      · exact absurd h (by simp)
      · rename_i hst
        split at h
        · exact absurd h (by simp)
        · rename_i finalProds restTotal restItems hrec
          simp only [Except.ok.injEq, Prod.mk.injEq] at h
          obtain ⟨rfl, rfl, rfl⟩ := h
          obtain ⟨hsum, hall⟩ := ih hrec
          have hid : product.id = item.product := findById_mem_id hf
          constructor
          · simp [hsum]
          · refine List.Forall₂.cons ⟨product, hf, by simp⟩ ?_
            refine hall.imp (fun {a b} hab => ?_)
            exact ItemSpec_of_saveStock (by rw [hid]; exact hf) hab

/-- The loop only ever fails with NotFound or InsufficientStock. -/
theorem processItems_error_shape {items : List SaleItemInput} {prods : List Product}
    {e : ApiError} (h : processItems items prods = .error e) :
    (∃ m, e = .notFound m) ∨ ∃ n a r, e = .insufficientStock n a r := by
  induction items generalizing prods with
  | nil => simp [processItems] at h
  | cons item rest ih =>
    simp only [processItems] at h
    split at h
    · exact .inl ⟨_, by simpa using h.symm⟩
    · rename_i product hf
      split at h
      · exact .inr ⟨_, _, _, by simpa using h.symm⟩
      · rename_i hst
        split at h
        · rename_i e' hrec
          cases h
          exact ih hrec
        · exact absurd h (by simp)

/-! ## createSale inversion -/

/-- Anatomy of a successful createSale: validation passed, the item loop
succeeded against the pre-call products, the sale was appended to the ledger,
and its scalar fields are exactly what lines 164-177 set. -/
theorem createSale_ok_inv {db : DB} {user : AuthUser} {today : DateYMD} {newId : Nat}
    {saleData : SaleInput} {db' : DB} {sale : Sale}
    (h : createSale db user today newId saleData = (db', .ok sale)) :
    ∃ items, saleData.items = some items ∧
      processItems items db.products = .ok (db'.products, sale.totalAmount, sale.items) ∧
      db'.sales = db.sales ++ [sale] ∧
      sale.id = newId ∧
      sale.saleNumber = saleNumberOf today.year db.sales.length ∧
      sale.paymentMethod = jsOrStr saleData.paymentMethod "" ∧
      sale.paymentStatus = jsOrStr saleData.paymentStatus "pendiente" ∧
      sale.seller = user.id ∧
      sale.createdAt = today ∧
      saleValidates sale = true := by
  simp only [createSale] at h
  split at h
  · exact absurd h (by simp)
  · rename_i items hit
    split at h
    · exact absurd h (by simp)
    · split at h
      · exact absurd h (by simp)
      · split at h
        · exact absurd h (by simp)
        · rename_i finalProds ta its hpi
          split at h
          · rename_i hv
            simp only [Prod.mk.injEq, Except.ok.injEq] at h
            obtain ⟨rfl, rfl⟩ := h
            exact ⟨items, hit, hpi, rfl, rfl, rfl, rfl, rfl, rfl, rfl, hv⟩
          · exact absurd h (by simp)

/-- A failing item aborts the transaction: the observable state is the pre-call
one and the loop's error is reported unchanged. -/
theorem createSale_item_error {db : DB} {user : AuthUser} {today : DateYMD} {newId : Nat}
    {saleData : SaleInput} {items : List SaleItemInput} {e : ApiError}
    (hit : saleData.items = some items) (hne : items.length ≠ 0)
    (hpm : strPresent saleData.paymentMethod = true)
    (hpi : processItems items db.products = .error e) :
    createSale db user today newId saleData = (db, .error e) := by
  simp [createSale, hit, hne, hpm, hpi]

/-! ## cancelSale lemmas -/

/-- Stock restoration increases every surviving product's stock by the total
quantity its line items carry; products absent from the store stay absent and
do not abort the loop. -/
theorem restoreStock_findById (its : List SaleItem) (prods : List Product) (pid : Nat) :
    findById Product.id (restoreStock its prods) pid =
      (findById Product.id prods pid).map
        (fun p => { p with stock := p.stock + itemQuantityFor its pid }) := by
  induction its generalizing prods with
  | nil =>
    cases hf : findById Product.id prods pid <;> simp [restoreStock, itemQuantityFor, hf]
  | cons it rest ih =>
    simp only [restoreStock]
    cases hf : findById Product.id prods it.product with
    | none =>
      rw [ih]
      by_cases hpid : pid = it.product
      · subst hpid
        rw [hf]
        simp
      · have hne : it.product ≠ pid := fun hh => hpid hh.symm
        have hq : itemQuantityFor (it :: rest) pid = itemQuantityFor rest pid := by
          simp [itemQuantityFor, hne]
        rw [hq]
    | some product =>
      rw [ih, findById_saveById]
      have hid : product.id = it.product := findById_mem_id hf
      by_cases hpid : pid = it.product
      · subst hpid
        have hc : Product.id { product with stock := product.stock + it.quantity } =
            it.product := hid
        rw [if_pos hc, hf]
        simp [itemQuantityFor, add_assoc]
      · have hne : it.product ≠ pid := fun hh => hpid hh.symm
        have hc : Product.id { product with stock := product.stock + it.quantity } ≠ pid := by
          show product.id ≠ pid
          rw [hid]; exact hne
        rw [if_neg hc]
        have hq : itemQuantityFor (it :: rest) pid = itemQuantityFor rest pid := by
          simp [itemQuantityFor, hne]
        rw [hq]

/-- Looking up a freshly appended record. -/
theorem findById_append_fresh {f : α → Nat} {l : List α} {x : α} {i : Nat}
    (hfresh : ∀ y ∈ l, f y ≠ i) (hx : f x = i) :
    findById f (l ++ [x]) i = some x := by
  induction l with
  | nil => simp [findById, hx]
  | cons y ys ih =>
    have hy : f y ≠ i := hfresh y (by simp)
    simp only [findById, List.cons_append, List.find?_cons] at ih ⊢
    simp only [hy, decide_eq_true_eq, if_neg]
    simpa [hy] using ih (fun z hz => hfresh z (by simp [hz]))

/-! ## Further helpers -/

/-- Observable stock of a product reference. -/
def stockOf (prods : List Product) (pid : Nat) : Option ℚ :=
  (findById Product.id prods pid).map Product.stock

theorem forall₂_mem_right {R : α → β → Prop} {l₁ : List α} {l₂ : List β}
    (h : List.Forall₂ R l₁ l₂) : ∀ b ∈ l₂, ∃ a, a ∈ l₁ ∧ R a b := by
  induction h with
  | nil => intro b hb; cases hb
  | cons r hrest ih =>
    intro b hb
    rcases List.mem_cons.1 hb with rfl | hb'
    · exact ⟨_, List.mem_cons_self _ _, r⟩
    · obtain ⟨a, ha, hr⟩ := ih b hb'
      exact ⟨a, List.mem_cons_of_mem _ ha, hr⟩

/-! ## Concrete fixtures -/

def prodA : Product :=
  { id := 1, code := "A1", name := "Leche", price := 1200, cost := 800, stock := 10,
    discount := 0, isActive := true }

def prodB : Product :=
  { id := 2, code := "B1", name := "Pan", price := 950, cost := 500, stock := 8,
    discount := 0, isActive := true }

def prodC : Product :=
  { id := 3, code := "C1", name := "Queso", price := 100, cost := 50, stock := 5,
    discount := 0, isActive := true }

def prodD : Product :=
  { id := 4, code := "D1", name := "Cafe", price := 100, cost := 40, stock := 10,
    discount := 10, isActive := true }

def db0 : DB := { products := [prodA, prodB, prodC, prodD], sales := [] }

def user0 : AuthUser := { id := 7, role := "empleado" }

def today0 : DateYMD := { year := 2025, month := 10, day := 11 }

def input3 : SaleInput :=
  { items := some [{ product := 1, quantity := 2, discount := none },
                   { product := 2, quantity := 1, discount := none }]
    paymentMethod := some "efectivo", paymentStatus := none, customer := none,
    notes := none, tax := none }

def inputC10 : SaleInput := { input3 with paymentStatus := some "cancelado" }

def inputD : SaleInput :=
  { items := some [{ product := 4, quantity := 1, discount := some 0 }]
    paymentMethod := some "efectivo", paymentStatus := none, customer := none,
    notes := none, tax := none }

def inputC1 : SaleInput :=
  { items := some [{ product := 3, quantity := 10, discount := none }]
    paymentMethod := some "efectivo", paymentStatus := none, customer := none,
    notes := none, tax := none }

def inputNoItems : SaleInput :=
  { items := none, paymentMethod := some "efectivo", paymentStatus := none,
    customer := none, notes := none, tax := none }

/-- The sale createSale persists for `input3` on `db0`. -/
def sale3 : Sale :=
  { id := 100, saleNumber := "V2025-001", customer := none,
    items := [{ product := 1, productCode := "A1", productName := "Leche", quantity := 2,
                unitPrice := 1200, discount := 0, subtotal := 2400 },
              { product := 2, productCode := "B1", productName := "Pan", quantity := 1,
                unitPrice := 950, discount := 0, subtotal := 950 }],
    totalAmount := 3350, paymentMethod := "efectivo", paymentStatus := "pendiente",
    seller := 7, notes := none, tax := 0, createdAt := today0 }

/-- The committed database for `input3` on `db0`. -/
def db3 : DB :=
  { products := [{ prodA with stock := 8 }, { prodB with stock := 7 }, prodC, prodD]
    sales := [sale3] }

/-- A sale persisted in 2023 (fixture for the sale-number counterexample). -/
def sale2023 : Sale :=
  { id := 50, saleNumber := "V2023-001", customer := none, items := [],
    totalAmount := 0, paymentMethod := "efectivo", paymentStatus := "completado",
    seller := 7, notes := none, tax := 0, createdAt := { year := 2023, month := 1, day := 1 } }

def db7 : DB := { products := [prodA, prodB], sales := [sale2023] }

def completedSale : Sale :=
  { id := 60, saleNumber := "V2025-001", customer := some 3,
    items := [{ product := 1, productCode := "A1", productName := "Leche", quantity := 2,
                unitPrice := 1200, discount := 0, subtotal := 2400 }],
    totalAmount := 2400, paymentMethod := "efectivo", paymentStatus := "completado",
    seller := 7, notes := none, tax := 0, createdAt := { year := 2025, month := 10, day := 10 } }

def cancelledSale : Sale :=
  { id := 61, saleNumber := "V2025-002", customer := none,
    items := [{ product := 2, productCode := "B1", productName := "Pan", quantity := 5,
                unitPrice := 950, discount := 0, subtotal := 4750 }],
    totalAmount := 4750, paymentMethod := "tarjeta_credito", paymentStatus := "cancelado",
    seller := 8, notes := none, tax := 0, createdAt := { year := 2025, month := 10, day := 9 } }

def emptyQuery : SalesQuery :=
  { startDate := none, endDate := none, paymentStatus := none, paymentMethod := none,
    customerId := none, sellerId := none }

/-- A pending sale sitting in the ledger (cancel / status-update fixtures). -/
def saleW : Sale :=
  { id := 60, saleNumber := "V2025-001", customer := none,
    items := [{ product := 1, productCode := "A1", productName := "Leche", quantity := 2,
                unitPrice := 1200, discount := 0, subtotal := 2400 }],
    totalAmount := 2400, paymentMethod := "efectivo", paymentStatus := "pendiente",
    seller := 7, notes := none, tax := 0, createdAt := today0 }

def dbW : DB := { products := [prodA, prodB], sales := [saleW] }

def rawNonNumericQty : RawSaleData :=
  { items := some [{ product := 3, quantity := .nonNumericStr "abc", discount := .undef }]
    paymentMethod := some "efectivo" }

/-! ## Claims -/

/-- C2 counterexample: an item-level discount override of `0` is not honoured —
with `inputD` (override 0 on a product configured at 10%) the stored line-item
discount is 10, not the overridden 0, because line 143 uses JS `||`. -/
theorem c2_discount_zero_override_ignored_cex :
    effectiveDiscount (some 0) 10 = 10 ∧
    ((createSale db0 user0 today0 103 inputD).2.toOption.map
      (fun s => s.items.map SaleItem.discount)) = some [10] ∧
    (10 : ℚ) ≠ 0 := by
  refine ⟨by norm_num [effectiveDiscount, jsOrNum], by with_unfolding_all rfl, by norm_num⟩

/-- C2 amended: the effective discount is the item override when it is supplied
and nonzero, otherwise the product's configured discount (so a zero override
falls through to the product discount); every successful sale stores exactly
this per line item. -/
theorem c2_effective_discount_amended :
    (∀ pd : ℚ, effectiveDiscount none pd = pd) ∧
    (∀ d pd : ℚ, d ≠ 0 → effectiveDiscount (some d) pd = d) ∧
    (∀ pd : ℚ, effectiveDiscount (some 0) pd = pd) ∧
    (∀ db user today newId saleData db' sale items,
      createSale db user today newId saleData = (db', Except.ok sale) →
      saleData.items = some items →
      List.Forall₂ (fun inp out => ∃ p,
        findById Product.id db.products inp.product = some p ∧
        SaleItem.discount out = effectiveDiscount inp.discount p.discount)
        items sale.items) := by
  refine ⟨?_, ?_, ?_, ?_⟩
  · intro pd; by_cases h : pd = 0 <;> simp [effectiveDiscount, jsOrNum, h]
  · intro d pd hd; simp [effectiveDiscount, jsOrNum, hd]
  · intro pd; by_cases h : pd = 0 <;> simp [effectiveDiscount, jsOrNum, h]
  · intro db user today newId saleData db' sale items h hit
    obtain ⟨items', hit', hpi, -⟩ := createSale_ok_inv h
    rw [hit] at hit'
    cases hit'
    have hall := (processItems_ok_items hpi).2
    exact hall.imp (fun {a b} hab => by
      obtain ⟨p, hp, -, -, -, -, -, hd, -⟩ := hab
      exact ⟨p, hp, hd⟩)

theorem c2_effective_discount_amended_witness :
    effectiveDiscount (some 5) 3 = 5 ∧ effectiveDiscount (some 0) 3 = 3 :=
  ⟨c2_effective_discount_amended.2.1 5 3 (by norm_num),
   c2_effective_discount_amended.2.2.1 3⟩

/-- C7 counterexample: with one 2023 sale already in the ledger and no 2025
sales, a 2025 createSale is numbered `V2025-002`, not `V2025-001`: the sequence
counts all existing sales, not the sales of the current calendar year. -/
theorem c7_sale_number_counts_all_years_cex :
    ((createSale db7 user0 today0 101 input3).2.toOption.map Sale.saleNumber) =
      some "V2025-002" ∧ "V2025-002" ≠ "V2025-001" := by
  exact ⟨by with_unfolding_all rfl, by decide⟩

/-- C7 amended: the sale number is `V<current year>-<N+1>` zero-padded to 3,
where N is the count of all existing sales in the ledger (across every year);
each success appends exactly one sale, so sequential successful calls get
strictly increasing sequence components. -/
theorem c7_sale_number_amended {db : DB} {user : AuthUser} {today : DateYMD}
    {newId : Nat} {saleData : SaleInput} {db' : DB} {sale : Sale}
    (h : createSale db user today newId saleData = (db', Except.ok sale)) :
    sale.saleNumber = "V" ++ toString today.year ++ "-" ++
      padStart3 (toString (db.sales.length + 1)) ∧
    db'.sales.length = db.sales.length + 1 := by
  obtain ⟨items, -, -, hsales, -, hnum, -, -, -, -, -⟩ := createSale_ok_inv h
  refine ⟨by rw [hnum]; rfl, by rw [hsales]; simp⟩

theorem c7_sale_number_amended_witness :
    sale3.saleNumber = "V" ++ toString today0.year ++ "-" ++
      padStart3 (toString (db0.sales.length + 1)) ∧
    db3.sales.length = db0.sales.length + 1 :=
  @c7_sale_number_amended db0 user0 today0 100 input3 db3 sale3 (by with_unfolding_all rfl)

/-- C8 counterexample: a request whose only item has the non-numeric quantity
`"abc"` passes the controller's entire pre-mutation validation (lines 100-109),
and the stock guard of line 134 also lets it through, because a comparison with
NaN is false — it is not rejected as a ValidationError before mutation. -/
theorem c8_nonnumeric_quantity_not_rejected_cex :
    validateSaleData rawNonNumericQty = none ∧
    jsLtNum 5 (JSValue.nonNumericStr "abc") = false :=
  ⟨rfl, rfl⟩

/-- C8 amended: an empty or missing item list, or a missing payment method, is
rejected as a ValidationError with the database untouched; a non-numeric
quantity is not covered by this validation. -/
theorem c8_validation_amended :
    (∀ (db : DB) user today newId saleData, SaleInput.items saleData = none →
      createSale db user today newId saleData =
        (db, Except.error (ApiError.validationError "La venta debe tener al menos un item"))) ∧
    (∀ (db : DB) user today newId saleData, SaleInput.items saleData = some [] →
      createSale db user today newId saleData =
        (db, Except.error (ApiError.validationError "La venta debe tener al menos un item"))) ∧
    (∀ (db : DB) user today newId saleData items, SaleInput.items saleData = some items →
      items ≠ [] → strPresent saleData.paymentMethod = false →
      createSale db user today newId saleData =
        (db, Except.error (ApiError.validationError "El método de pago es requerido"))) := by
  refine ⟨?_, ?_, ?_⟩
  · intro db user today newId saleData hit
    simp [createSale, hit]
  · intro db user today newId saleData hit
    simp [createSale, hit]
  · intro db user today newId saleData items hit hne hpm
    simp [createSale, hit, hpm, List.length_eq_zero, hne]

theorem c8_validation_amended_witness :
    createSale db0 user0 today0 100 inputNoItems =
      (db0, Except.error (ApiError.validationError "La venta debe tener al menos un item")) :=
  c8_validation_amended.1 db0 user0 today0 100 inputNoItems rfl

/-- C9: for a non-admin caller the seller filter is forced to the caller's own
identity, so the `sellerId` query parameter has no effect on getAllSales or on
getSalesStats. -/
theorem c9_seller_scoping (db : DB) (u : AuthUser) (q : SalesQuery) (sid : Option Nat)
    (h : u.role ≠ "admin") :
    getAllSales db (some u) { q with sellerId := sid } = getAllSales db (some u) q ∧
    getSalesStats db (some u) { q with sellerId := sid } = getSalesStats db (some u) q := by
  constructor
  · have hq : ∀ s ∈ db.sales, saleMatchesQuery (some u) { q with sellerId := sid } s =
        saleMatchesQuery (some u) q s := by
      intro s _
      simp [saleMatchesQuery, effectiveSeller, h]
    simp only [getAllSales]
    rw [List.filter_congr hq]
  · rfl

theorem c9_seller_scoping_witness :
    getAllSales db3 (some user0) { emptyQuery with sellerId := some 99 } =
      getAllSales db3 (some user0) emptyQuery :=
  (c9_seller_scoping db3 user0 emptyQuery (some 99) (by decide)).1

/-- C1: when any item of the loop fails — unresolved product reference, or
stock below the requested quantity — createSale reports that failure (NotFound,
or InsufficientStock carrying the available-vs-requested detail), the
observable database is exactly the pre-call one (all in-transaction stock
mutations are discarded) and no Sale is appended.  Concretely, requesting 10
units of Queso (stock 5) yields InsufficientStock "Queso" 5 10 and leaves db0
byte-for-byte unchanged. -/
theorem c1_rollback_on_item_failure :
    (∀ (db : DB) user today newId saleData items e,
      SaleInput.items saleData = some items → items.length ≠ 0 →
      strPresent saleData.paymentMethod = true →
      processItems items db.products = Except.error e →
      ((∃ m, e = ApiError.notFound m) ∨ ∃ n a r, e = ApiError.insufficientStock n a r) ∧
      createSale db user today newId saleData = (db, Except.error e)) ∧
    createSale db0 user0 today0 100 inputC1 =
      (db0, Except.error (ApiError.insufficientStock "Queso" 5 10)) := by
  constructor
  · intro db user today newId saleData items e hit hne hpm hpi
    exact ⟨processItems_error_shape hpi, createSale_item_error hit hne hpm hpi⟩
  · with_unfolding_all rfl

theorem c1_rollback_on_item_failure_witness :
    createSale db0 user0 today0 100 inputC1 =
      (db0, Except.error (ApiError.insufficientStock "Queso" 5 10)) :=
  (c1_rollback_on_item_failure.1 db0 user0 today0 100 inputC1
    [{ product := 3, quantity := 10, discount := none }]
    (ApiError.insufficientStock "Queso" 5 10) rfl (by decide) rfl
    (by with_unfolding_all rfl)).2

/-- C3: on every successful createSale each stored line item's subtotal is
quantity × unit price × (1 − discount/100), with the unit price snapshotting
the referenced product's price; the sale's totalAmount is the sum of the line
subtotals; and every product's stock decreases by exactly the total quantity
requested for it.  The spec's example — qty 2 at 1200 plus qty 1 at 950, no
discounts — totals 3350 and drops the two stocks by 2 and 1. -/
theorem c3_subtotals_total_and_stock :
    (∀ (db : DB) user today newId saleData db' sale,
      createSale db user today newId saleData = (db', Except.ok sale) →
      (∀ it ∈ sale.items,
        SaleItem.subtotal it = it.quantity * it.unitPrice * (1 - it.discount / 100)) ∧
      sale.totalAmount = (sale.items.map SaleItem.subtotal).sum ∧
      (∀ it ∈ sale.items, ∃ p, findById Product.id db.products it.product = some p ∧
        SaleItem.unitPrice it = p.price) ∧
      (∀ items, SaleInput.items saleData = some items →
        ∀ pid, stockOf db'.products pid =
          (stockOf db.products pid).map (fun s => s - inputQuantityFor items pid))) ∧
    ((createSale db0 user0 today0 100 input3).2.toOption.map Sale.totalAmount = some 3350 ∧
     stockOf (createSale db0 user0 today0 100 input3).1.products 1 = some 8 ∧
     stockOf (createSale db0 user0 today0 100 input3).1.products 2 = some 7) := by
  constructor
  · intro db user today newId saleData db' sale h
    obtain ⟨items, hit, hpi, -⟩ := createSale_ok_inv h
    obtain ⟨hsum, hall⟩ := processItems_ok_items hpi
    refine ⟨?_, hsum, ?_, ?_⟩
    · intro it hmem
      obtain ⟨inp, -, hspec⟩ := forall₂_mem_right hall it hmem
      obtain ⟨p, hfind, hidp, -, -, hq, hup, -, hsub⟩ := hspec
      rw [hsub, hq, hup]
    · intro it hmem
      obtain ⟨inp, -, hspec⟩ := forall₂_mem_right hall it hmem
      obtain ⟨p, hfind, hidp, -, -, -, hup, -, -⟩ := hspec
      exact ⟨p, by rw [hidp, findById_mem_id hfind]; exact hfind, hup⟩
    · intro items' hit2 pid
      rw [hit] at hit2
      cases hit2
      have hprod := processItems_ok_products hpi pid
      cases hf : findById Product.id db.products pid <;>
        simp [stockOf, hprod, hf]
  · exact ⟨by with_unfolding_all rfl, by with_unfolding_all rfl, by with_unfolding_all rfl⟩

theorem c3_subtotals_total_and_stock_witness :
    sale3.totalAmount = (sale3.items.map SaleItem.subtotal).sum :=
  (c3_subtotals_total_and_stock.1 db0 user0 today0 100 input3 db3 sale3
    (by with_unfolding_all rfl)).2.1

/-- The sale createSale persists for `inputC10` (caller-supplied "cancelado"). -/
def saleC10 : Sale := { sale3 with id := 102, paymentStatus := "cancelado" }

/-- The committed database for `inputC10` on `db0`. -/
def dbC10 : DB := { products := db3.products, sales := [saleC10] }

/-- C4: cancelling an existing, not-yet-cancelled sale returns the sale with
status "cancelado", adds each line item's quantity back to its product's stock
(items whose product no longer resolves are skipped without aborting — absent
products stay absent while the cancellation still succeeds), and stores the
updated sale; a second cancelSale on the same sale fails with InvalidState and
changes nothing, and cancelSale on an unknown id fails with NotFound. -/
theorem c4_cancelSale_spec :
    (∀ (db : DB) saleId sale, findById Sale.id db.sales saleId = some sale →
      sale.paymentStatus ≠ "cancelado" →
      (cancelSale db saleId).2 = Except.ok { sale with paymentStatus := "cancelado" } ∧
      (∀ pid, stockOf (cancelSale db saleId).1.products pid =
        (stockOf db.products pid).map (fun s => s + itemQuantityFor sale.items pid)) ∧
      findById Sale.id (cancelSale db saleId).1.sales saleId =
        some { sale with paymentStatus := "cancelado" } ∧
      cancelSale (cancelSale db saleId).1 saleId =
        ((cancelSale db saleId).1,
          Except.error (ApiError.invalidState "La venta ya está cancelada"))) ∧
    (∀ (db : DB) saleId, findById Sale.id db.sales saleId = none →
      cancelSale db saleId = (db, Except.error (ApiError.notFound "Venta no encontrada"))) := by
  constructor
  · intro db saleId sale hf hst
    have hred : cancelSale db saleId =
        ({ products := restoreStock sale.items db.products
           sales := saveById Sale.id db.sales { sale with paymentStatus := "cancelado" } },
         Except.ok { sale with paymentStatus := "cancelado" }) := by
      simp [cancelSale, hf, hst]
    have hsid : sale.id = saleId := findById_mem_id hf
    have hfind2 : findById Sale.id
        (saveById Sale.id db.sales { sale with paymentStatus := "cancelado" }) saleId =
        some { sale with paymentStatus := "cancelado" } := by
      rw [findById_saveById]
      have hc : Sale.id { sale with paymentStatus := "cancelado" } = saleId := hsid
      rw [if_pos hc, hf]
      rfl
    refine ⟨by rw [hred], ?_, ?_, ?_⟩
    · intro pid
      rw [hred]
      have hres := restoreStock_findById sale.items db.products pid
      cases hfp : findById Product.id db.products pid <;> simp [stockOf, hres, hfp]
    · rw [hred]
      exact hfind2
    · rw [hred]
      simp [cancelSale, hfind2]
  · intro db saleId hf
    simp [cancelSale, hf]

theorem c4_cancelSale_spec_witness :
    (cancelSale dbW 60).2 = Except.ok { saleW with paymentStatus := "cancelado" } ∧
    cancelSale (cancelSale dbW 60).1 60 =
      ((cancelSale dbW 60).1,
        Except.error (ApiError.invalidState "La venta ya está cancelada")) := by
  have h := c4_cancelSale_spec.1 dbW 60 saleW (by with_unfolding_all rfl) (by decide)
  exact ⟨h.1, h.2.2.2⟩

/-- The same ledger with its cancelled sales deleted. -/
def withoutCancelled (db : DB) : DB :=
  { products := db.products
    sales := db.sales.filter (fun s => decide (s.paymentStatus ≠ "cancelado")) }

def twoLedger : DB := { products := [], sales := [cancelledSale, completedSale] }

def oneLedger : DB := { products := [], sales := [completedSale] }

/-- Pre-filtering out the cancelled sales does not change the
cancelled-excluding matched set. -/
theorem filter_statsFilter_filter_ne (l : List Sale) (user : Option AuthUser)
    (q : SalesQuery) :
    (l.filter (fun s => decide (s.paymentStatus ≠ "cancelado"))).filter
      (saleMatchesStatsFilter user q) = l.filter (saleMatchesStatsFilter user q) := by
  rw [List.filter_filter]
  apply List.filter_congr
  intro s _
  cases hd : decide (s.paymentStatus ≠ "cancelado") <;>
    simp [saleMatchesStatsFilter, hd]

/-- C5 counterexample: over the ledger with one cancelled and one completed
sale, the per-payment-status aggregate contains a "cancelado" group with the
cancelled sale's count and totalAmount — line 352's
`{ ...filters, paymentStatus: { $exists: true } }` overrides the
`$ne: 'cancelado'` clause for that one pipeline — so the statistics are not
the completed sale's contribution alone. -/
theorem c5_status_aggregate_includes_cancelled_cex :
    (getSalesStats twoLedger none emptyQuery).paymentStatus =
      [{ key := "cancelado", count := 1, total := 4750 },
       { key := "completado", count := 1, total := 2400 }] ∧
    (getSalesStats oneLedger none emptyQuery).paymentStatus =
      [{ key := "completado", count := 1, total := 2400 }] ∧
    getSalesStats twoLedger none emptyQuery ≠ getSalesStats oneLedger none emptyQuery := by
  have h1 : (getSalesStats twoLedger none emptyQuery).paymentStatus =
      [{ key := "cancelado", count := 1, total := 4750 },
       { key := "completado", count := 1, total := 2400 }] := by
    with_unfolding_all rfl
  have h2 : (getSalesStats oneLedger none emptyQuery).paymentStatus =
      [{ key := "completado", count := 1, total := 2400 }] := by
    with_unfolding_all rfl
  refine ⟨h1, h2, ?_⟩
  intro h
  rw [h, h2] at h1
  have hlen := congrArg List.length h1
  simp at hlen

/-- C5 amended: cancelled sales contribute zero to the sale count, the
totalAmount sum, the per-payment-method totals, the top products and the
by-day series — every aggregate except the per-payment-status breakdown, whose
line-352 `$match` re-admits them; over the one-cancelled-one-completed ledger
those five aggregates equal exactly the completed sale's contribution, while
the payment-status breakdown additionally carries the cancelled group. -/
theorem c5_stats_exclude_cancelled_amended :
    (∀ (db : DB) user q,
      (getSalesStats db user q).totalSales =
        (getSalesStats (withoutCancelled db) user q).totalSales ∧
      (getSalesStats db user q).totalAmount =
        (getSalesStats (withoutCancelled db) user q).totalAmount ∧
      (getSalesStats db user q).paymentMethods =
        (getSalesStats (withoutCancelled db) user q).paymentMethods ∧
      (getSalesStats db user q).topProducts =
        (getSalesStats (withoutCancelled db) user q).topProducts ∧
      (getSalesStats db user q).salesByDay =
        (getSalesStats (withoutCancelled db) user q).salesByDay) ∧
    ((getSalesStats twoLedger none emptyQuery).totalSales =
       (getSalesStats oneLedger none emptyQuery).totalSales ∧
     (getSalesStats twoLedger none emptyQuery).totalAmount =
       (getSalesStats oneLedger none emptyQuery).totalAmount ∧
     (getSalesStats twoLedger none emptyQuery).paymentMethods =
       (getSalesStats oneLedger none emptyQuery).paymentMethods ∧
     (getSalesStats twoLedger none emptyQuery).topProducts =
       (getSalesStats oneLedger none emptyQuery).topProducts ∧
     (getSalesStats twoLedger none emptyQuery).salesByDay =
       (getSalesStats oneLedger none emptyQuery).salesByDay ∧
     (getSalesStats twoLedger none emptyQuery).paymentStatus =
       [{ key := "cancelado", count := 1, total := 4750 },
        { key := "completado", count := 1, total := 2400 }]) := by
  constructor
  · intro db user q
    have hm := filter_statsFilter_filter_ne db.sales user q
    refine ⟨?_, ?_, ?_, ?_, ?_⟩ <;>
      (simp only [getSalesStats, withoutCancelled]; rw [hm])
  · refine ⟨?_, ?_, ?_, ?_, ?_, ?_⟩ <;> with_unfolding_all rfl

/-- The sale record updatePaymentStatus stores (lines 231-236). -/
def updatedSale (sale : Sale) (ns nm : Option String) : Sale :=
  { sale with
      paymentStatus := jsOrStr ns ""
      paymentMethod := if strPresent nm then jsOrStr nm "" else sale.paymentMethod }

/-- C6: on a sale that exists and is not cancelled, updatePaymentStatus sets
the supplied status (and the method when one is supplied), stores the sale, and
never touches any product — even when the new status is "cancelado"; it fails
with InvalidState on a cancelled sale, ValidationError when no status is
supplied, NotFound when the sale does not exist, all without mutating. -/
theorem c6_updatePaymentStatus_spec :
    (∀ (db : DB) saleId ns nm sale, strPresent ns = true →
      findById Sale.id db.sales saleId = some sale →
      sale.paymentStatus ≠ "cancelado" →
      validPaymentStatus (jsOrStr ns "") = true →
      (strPresent nm = true → validPaymentMethod (jsOrStr nm "") = true) →
      (updatePaymentStatus db saleId ns nm).1.products = db.products ∧
      (updatePaymentStatus db saleId ns nm).2 = Except.ok (updatedSale sale ns nm) ∧
      (updatedSale sale ns nm).paymentStatus = jsOrStr ns "" ∧
      (updatedSale sale ns nm).items = sale.items ∧
      findById Sale.id (updatePaymentStatus db saleId ns nm).1.sales saleId =
        some (updatedSale sale ns nm)) ∧
    (∀ (db : DB) saleId ns nm sale, strPresent ns = true →
      findById Sale.id db.sales saleId = some sale → sale.paymentStatus = "cancelado" →
      updatePaymentStatus db saleId ns nm =
        (db, Except.error (ApiError.invalidState "No se puede modificar una venta cancelada"))) ∧
    (∀ (db : DB) saleId ns nm, strPresent ns = false →
      updatePaymentStatus db saleId ns nm =
        (db, Except.error (ApiError.validationError "Se requiere el estado de pago"))) ∧
    (∀ (db : DB) saleId ns nm, strPresent ns = true →
      findById Sale.id db.sales saleId = none →
      updatePaymentStatus db saleId ns nm =
        (db, Except.error (ApiError.notFound "Venta no encontrada"))) := by
  refine ⟨?_, ?_, ?_, ?_⟩
  · intro db saleId ns nm sale hns hf hst hvs hvm
    have hsid : sale.id = saleId := findById_mem_id hf
    have hred : updatePaymentStatus db saleId ns nm =
        ({ db with sales := saveById Sale.id db.sales (updatedSale sale ns nm) },
         Except.ok (updatedSale sale ns nm)) := by
      cases hm : strPresent nm
      · simp [updatePaymentStatus, updatedSale, hns, hf, hst, hm, hvs]
      · simp [updatePaymentStatus, updatedSale, hns, hf, hst, hm, hvs, hvm hm]
    refine ⟨by rw [hred], by rw [hred], rfl, rfl, ?_⟩
    rw [hred]
    dsimp only
    rw [findById_saveById]
    have hc : Sale.id (updatedSale sale ns nm) = saleId := hsid
    rw [if_pos hc, hf]
    rfl
  · intro db saleId ns nm sale hns hf hst
    simp [updatePaymentStatus, hns, hf, hst]
  · intro db saleId ns nm hns
    simp [updatePaymentStatus, hns]
  · intro db saleId ns nm hns hf
    simp [updatePaymentStatus, hns, hf]

theorem c6_updatePaymentStatus_spec_witness :
    (updatePaymentStatus dbW 60 (some "cancelado") none).1.products = dbW.products ∧
    (updatePaymentStatus dbW 60 (some "cancelado") none).2 =
      Except.ok (updatedSale saleW (some "cancelado") none) := by
  have h := c6_updatePaymentStatus_spec.1 dbW 60 (some "cancelado") none saleW rfl
    (by with_unfolding_all rfl) (by decide) (by decide)
    (fun hh => by simp [strPresent] at hh)
  exact ⟨h.1, h.2.1⟩

/-- C10 counterexample: a sale created directly as "cancelado" does NOT stay
out of every statistics aggregate: it appears in the per-payment-status
breakdown with its count and totalAmount, because line 352's
`{ ...filters, paymentStatus: { $exists: true } }` overrides the
`$ne: 'cancelado'` clause for that one pipeline. -/
theorem c10_cancelled_in_status_stats_cex :
    createSale db0 user0 today0 102 inputC10 = (dbC10, Except.ok saleC10) ∧
    saleC10.paymentStatus = "cancelado" ∧
    (getSalesStats dbC10 none emptyQuery).paymentStatus =
      [{ key := "cancelado", count := 1, total := 3350 }] := by
  exact ⟨by with_unfolding_all rfl, rfl, by with_unfolding_all rfl⟩

/-- C10 amended: createSale stores whatever initial payment status the caller
supplies (defaulting to "pendiente" when absent); a sale created directly as
"cancelado" still has every line item's stock decremented, contributes zero to
every statistics aggregate except the per-payment-status breakdown (whose
line-352 filter re-admits cancelled sales), and both cancelSale and
updatePaymentStatus reject it with InvalidState — no public operation ever
restores that stock. -/
theorem c10_created_cancelled_spec :
    (∀ (db : DB) user today newId saleData db' sale,
      createSale db user today newId saleData = (db', Except.ok sale) →
      sale.paymentStatus = jsOrStr saleData.paymentStatus "pendiente") ∧
    (∀ (db : DB) user today newId saleData db' sale,
      createSale db user today newId saleData = (db', Except.ok sale) →
      SaleInput.paymentStatus saleData = some "cancelado" →
      sale.paymentStatus = "cancelado" ∧
      (∀ items, SaleInput.items saleData = some items →
        ∀ pid, stockOf db'.products pid =
          (stockOf db.products pid).map (fun s => s - inputQuantityFor items pid)) ∧
      (∀ user2 q,
        (getSalesStats db' user2 q).totalSales =
          (getSalesStats { products := db'.products, sales := db.sales } user2 q).totalSales ∧
        (getSalesStats db' user2 q).totalAmount =
          (getSalesStats { products := db'.products, sales := db.sales } user2 q).totalAmount ∧
        (getSalesStats db' user2 q).paymentMethods =
          (getSalesStats { products := db'.products, sales := db.sales } user2 q).paymentMethods ∧
        (getSalesStats db' user2 q).topProducts =
          (getSalesStats { products := db'.products, sales := db.sales } user2 q).topProducts ∧
        (getSalesStats db' user2 q).salesByDay =
          (getSalesStats { products := db'.products, sales := db.sales } user2 q).salesByDay) ∧
      ((∀ s ∈ db.sales, Sale.id s ≠ newId) →
        cancelSale db' newId =
          (db', Except.error (ApiError.invalidState "La venta ya está cancelada")) ∧
        (∀ ns nm, strPresent ns = true →
          updatePaymentStatus db' newId ns nm =
            (db', Except.error
              (ApiError.invalidState "No se puede modificar una venta cancelada"))))) := by
  constructor
  · intro db user today newId saleData db' sale h
    obtain ⟨items, -, -, -, -, -, -, hstatus, -, -, -⟩ := createSale_ok_inv h
    exact hstatus
  · intro db user today newId saleData db' sale h hcs
    obtain ⟨items, hit, hpi, hsales, hid, -, -, hstatus, -, -, -⟩ := createSale_ok_inv h
    have hstat : sale.paymentStatus = "cancelado" := by rw [hstatus, hcs]; rfl
    refine ⟨hstat, ?_, ?_, ?_⟩
    · intro items' hit2 pid
      rw [hit] at hit2
      cases hit2
      have hprod := processItems_ok_products hpi pid
      cases hf : findById Product.id db.products pid <;> simp [stockOf, hprod, hf]
    · intro user2 q
      have hm : db'.sales.filter (saleMatchesStatsFilter user2 q) =
          db.sales.filter (saleMatchesStatsFilter user2 q) := by
        rw [hsales, List.filter_append]
        have hsale : saleMatchesStatsFilter user2 q sale = false := by
          simp [saleMatchesStatsFilter, hstat]
        simp [hsale]
      refine ⟨?_, ?_, ?_, ?_, ?_⟩ <;> (simp only [getSalesStats]; rw [hm])
    · intro hfresh
      have hfind : findById Sale.id db'.sales newId = some sale := by
        rw [hsales]
        exact findById_append_fresh hfresh hid
      constructor
      · simp [cancelSale, hfind, hstat]
      · intro ns nm hns
        simp [updatePaymentStatus, hns, hfind, hstat]

theorem c10_created_cancelled_spec_witness :
    saleC10.paymentStatus = "cancelado" ∧
    cancelSale dbC10 102 =
      (dbC10, Except.error (ApiError.invalidState "La venta ya está cancelada")) := by
  have h := c10_created_cancelled_spec.2 db0 user0 today0 102 inputC10 dbC10 saleC10
    (by with_unfolding_all rfl) rfl
  exact ⟨h.1, (h.2.2.2 (by simp [db0])).1⟩

end Supermercado
